import Mathlib

/-!
# Shallow embedding of the movie recommendation app (`src/app.py`)

The app loads a movie catalog and a precomputed similarity matrix, and for a
selected title returns the five most similar titles together with poster URLs
fetched from a metadata API.  This file embeds the relevant functions
(`fetch_poster`, `recommend`, `load_similarity_data`) as pure Lean functions:
Python floats are modelled by rationals, the network and the file system by
explicit oracles/state, and Python exceptions by an `Except` layer.
-/

namespace MovieRec

/-- A row of the `movies` DataFrame: an external TMDB id and a title. -/
structure MovieEntry where
  movie_id : Nat
  title : String
deriving Repr, DecidableEq

/-- The movie catalog, an ordered sequence of entries; the DataFrame's
positional index is the list position. -/
abbrev Catalog := List MovieEntry

/-- The similarity matrix: entry `i j` is the similarity score between catalog
entries `i` and `j`.  Scores are modelled as rationals. -/
abbrev SimMatrix := List (List ℚ)

/-- The Python exceptions this embedding distinguishes.  `indexError` models
`IndexError` — a subclass of `LookupError` — raised by `.index[0]` on an empty
selection and by positional indexing out of range. -/
inductive PyError where
  | indexError
deriving Repr, DecidableEq

/-- The outcome of the HTTP request inside `fetch_poster`: an exception
(timeout, connection error, …) or a response with a status code and an
optional `poster_path` field (`none` models the field being absent or null,
`some ""` an empty string). -/
inductive FetchOutcome where
  | exn
  | response (status : Nat) (poster_path : Option String)
deriving Repr, DecidableEq

/-- The fixed fallback image URL (src/app.py lines 97 and 101). -/
def placeholderURL : String := "https://via.placeholder.com/500x750?text=No+Poster"

/-- The prefix of successfully constructed poster URLs (src/app.py line 95). -/
def tmdbImageBase : String := "https://image.tmdb.org/t/p/w500/"

/-- `fetch_poster` (src/app.py lines 86-101): on a 200 response whose
`poster_path` is present and truthy, return the constructed image URL;
in every other case (exception, non-200 status, missing/null/empty field)
return the fixed placeholder URL.  The function never raises: the whole body
is wrapped in `try/except Exception`. -/
def fetch_poster : FetchOutcome → String
  | .exn => placeholderURL
  | .response status path =>
    if status = 200 then
      match path with
      | some p => if p ≠ "" then tmdbImageBase ++ p else placeholderURL
      | none => placeholderURL
    else placeholderURL

/-- Whether a fetch outcome is a failure in the sense of the spec, i.e. makes
`fetch_poster` fall back to the placeholder: exception, non-200 status, or a
missing/null/empty `poster_path`. -/
def fetchFails : FetchOutcome → Bool
  | .exn => true
  | .response status path =>
    !(status = 200 && (match path with | some p => p ≠ "" | none => false))

/-- Python's substring test `needle in hay`, over the characters of the
strings. -/
def strContainsSub (hay needle : String) : Bool :=
  hay.toList.tails.any (fun t => needle.toList.isPrefixOf t)

/-- Python's `sorted(pairs, reverse=True, key=lambda x: x[1])` on
(index, score) pairs: a stable sort placing higher scores first, pairs with
equal scores keeping their original relative order.  CPython's `sorted` is a
stable sort, and stable sorting is a unique function of the list and the key,
so any stable implementation is a faithful embedding; we use
`List.insertionSort` with the total preorder `b.2 ≤ a.2`, which is stable
(an element is inserted before later elements of equal score and after
strictly greater ones). -/
def pySortDescBySnd (l : List (Nat × ℚ)) : List (Nat × ℚ) :=
  l.insertionSort (fun a b => b.2 ≤ a.2)

instance : IsTotal (Nat × ℚ) (fun a b => b.2 ≤ a.2) :=
  ⟨fun a b => le_total b.2 a.2⟩

instance : IsTrans (Nat × ℚ) (fun a b => b.2 ≤ a.2) :=
  ⟨fun _ _ _ h1 h2 => le_trans h2 h1⟩

/-- Lines 106-108 of `recommend` after the row read: pair each column index
of the selected row with its score (`enumerate`), sort descending by score,
and take the Python slice `[1:6]`. -/
def movies_list (distances : List ℚ) : List (Nat × ℚ) :=
  ((pySortDescBySnd distances.enum).drop 1).take 5

/-- The loop of lines 114-123, in the `Except` monad: `movies.iloc[i[0]]`
raises `IndexError` when the positional index is out of range; otherwise the
entry's title is appended, its poster fetched (`fetch` gives the network
outcome for a movie id), and the failure counter advanced when the poster URL
contains the substring `"placeholder"`.  Returns (titles, poster URLs,
failed-poster count). -/
def recLoop (movies : Catalog) (fetch : Nat → FetchOutcome) :
    List (Nat × ℚ) → Except PyError (List String × List String × Nat)
  | [] => .ok ([], [], 0)
  | (idx, _) :: rest =>
    match movies[idx]? with
    | none => .error .indexError
    | some entry => do
      let poster := fetch_poster (fetch entry.movie_id)
      let (ns, ps, f) ← recLoop movies fetch rest
      .ok (entry.title :: ns, poster :: ps,
           (if strContainsSub poster "placeholder" then 1 else 0) + f)

/-- The `try` block of `recommend` (lines 105-128): locate the first catalog
index whose title equals the input — `movies[movies['title'] == movie].index[0]`
raises `IndexError` when there is no match — read that row of the similarity
matrix (`IndexError` when out of range), select the `[1:6]` slice of the
descending sort, and run the fetch loop. -/
def recommend_body (movie : String) (movies : Catalog) (similarity : SimMatrix)
    (fetch : Nat → FetchOutcome) :
    Except PyError (List String × List String × Nat) := do
  let movie_index ← match movies.findIdx? (fun e => e.title == movie) with
    | some i => Except.ok i
    | none => Except.error PyError.indexError
  let distances ← match similarity[movie_index]? with
    | some d => Except.ok d
    | none => Except.error PyError.indexError
  recLoop movies fetch (movies_list distances)

/-- What `recommend` returns to its caller together with the UI messages it
emitted: `infoShown` models the `st.info` poster-failure summary of lines
125-126 (shown only when the counter is positive) and `errorShown` the
`st.error` call of the `except` branch (line 131). -/
structure RecommendResult where
  names : List String
  posters : List String
  infoShown : Option Nat
  errorShown : Bool
deriving Repr, DecidableEq

/-- `recommend` (src/app.py lines 104-132).  The whole body runs inside
`try/except Exception`: any exception — including the lookup `IndexError` —
is caught, an error message is displayed, and the pair `([], [])` is
returned.  As a total Lean function this embeds the fact that `recommend`
itself never raises. -/
def recommend (movie : String) (movies : Catalog) (similarity : SimMatrix)
    (fetch : Nat → FetchOutcome) : RecommendResult :=
  match recommend_body movie movies similarity fetch with
  | .ok (ns, ps, failed) =>
    { names := ns, posters := ps,
      infoShown := if failed > 0 then some failed else none,
      errorShown := false }
  | .error _ =>
    { names := [], posters := [], infoShown := none, errorShown := true }

/-- Pure description of what the loop of `recommend` visits: the catalog
entries at the selected positional indices, `none` when some index is out of
range (in which case the loop raises). -/
def loopEntries (movies : Catalog) : List (Nat × ℚ) → Option (List MovieEntry)
  | [] => some []
  | p :: rest =>
    match movies[p.1]? with
    | none => none
    | some e => (loopEntries movies rest).map (fun es => e :: es)

/-- The titles appended by the loop when it visits `es`. -/
def loopNames (es : List MovieEntry) : List String :=
  es.map (·.title)

/-- The poster URLs appended by the loop when it visits `es`, the network
outcomes being given by `fetch`. -/
def loopPosters (fetch : Nat → FetchOutcome) (es : List MovieEntry) : List String :=
  es.map (fun e => fetch_poster (fetch e.movie_id))

/-- The failed-poster counter computed by the loop: the number of appended
poster URLs containing the substring `"placeholder"`. -/
def loopFailed (fetch : Nat → FetchOutcome) (es : List MovieEntry) : Nat :=
  es.countP (fun e => strContainsSub (fetch_poster (fetch e.movie_id)) "placeholder")

/-- Outcome of `download_large_file_from_google_drive` as seen by
`load_similarity_data`: success writes `similarity.pkl` whose
pickle-loadability is `valid`; an exception may leave a partial file behind
(`leftover`), which the `except` branch of lines 69-72 does not remove. -/
inductive DownloadOutcome where
  | ok (valid : Bool)
  | exn (leftover : Option Bool)
deriving Repr, DecidableEq

/-- One run of `load_similarity_data`: the value returned to the caller
(`some ()` means a similarity matrix was returned, `none` models Python's
`None`) and the on-disk state of `similarity.pkl` afterwards (`none` absent,
`some b` present with pickle-loadability `b`). -/
structure LoadRun where
  result : Option Unit
  finalFile : Option Bool
deriving Repr, DecidableEq

/-- `load_similarity_data` (src/app.py lines 46-83), with the file system and
the network made explicit: `initFile` is the state of `similarity.pkl` on
entry and `dl` the outcome of the Google-Drive download.  When the file is
absent it is downloaded and immediately verified with `pickle.load`
(lines 59-67): a verification failure removes the file and returns `None`;
a download exception returns `None`, leaving whatever was partially written
(lines 69-72 do not remove it).  With the file present, the matrix is
unpickled (lines 75-78); a load failure removes the file and returns `None`
(lines 79-83). -/
def load_similarity_data (initFile : Option Bool) (dl : DownloadOutcome) : LoadRun :=
  match initFile with
  | none =>
    match dl with
    | .exn leftover => { result := none, finalFile := leftover }
    | .ok valid =>
      if valid then
        { result := some (), finalFile := some true }
      else
        { result := none, finalFile := none }
  | some valid =>
    if valid then
      { result := some (), finalFile := some valid }
    else
      { result := none, finalFile := none }

/-! ## Lemmas about the fetch loop and the selection -/

theorem recLoop_eq_ok {movies : Catalog} {fetch : Nat → FetchOutcome}
    {l : List (Nat × ℚ)} {es : List MovieEntry}
    (h : loopEntries movies l = some es) :
    recLoop movies fetch l =
      .ok (loopNames es, loopPosters fetch es, loopFailed fetch es) := by
  induction l generalizing es with
  | nil =>
    simp only [loopEntries, Option.some.injEq] at h
    subst h
    rfl
  | cons p rest ih =>
    cases hp : movies[p.1]? with
    | none => simp [loopEntries, hp] at h
    | some entry =>
      cases hr : loopEntries movies rest with
      | none => simp [loopEntries, hp, hr] at h
      | some es' =>
        simp only [loopEntries, hp, hr, Option.map_some', Option.some.injEq] at h
        subst h
        obtain ⟨idx, score⟩ := p
        simp only [recLoop, hp, ih hr, loopNames, loopPosters, loopFailed,
          List.map_cons, List.countP_cons, Bind.bind, Except.bind]
        simp [Nat.add_comm]

theorem recLoop_eq_err {movies : Catalog} {fetch : Nat → FetchOutcome}
    {l : List (Nat × ℚ)}
    (h : loopEntries movies l = none) :
    recLoop movies fetch l = .error .indexError := by
  induction l with
  | nil => simp [loopEntries] at h
  | cons p rest ih =>
    cases hp : movies[p.1]? with
    | none =>
      obtain ⟨idx, score⟩ := p
      simp [recLoop, hp]
    | some entry =>
      cases hr : loopEntries movies rest with
      | none =>
        obtain ⟨idx, score⟩ := p
        simp [recLoop, hp, ih hr, Bind.bind, Except.bind]
      | some es' => simp [loopEntries, hp, hr] at h

theorem loopEntries_of_bounds {movies : Catalog} {l : List (Nat × ℚ)}
    (h : ∀ p ∈ l, p.1 < movies.length) :
    ∃ es, loopEntries movies l = some es ∧ es.length = l.length := by
  induction l with
  | nil => exact ⟨[], rfl, rfl⟩
  | cons p rest ih =>
    obtain ⟨es', hes', hlen⟩ := ih (fun q hq => h q (List.mem_cons_of_mem _ hq))
    have hp : p.1 < movies.length := h p (List.mem_cons_self _ _)
    refine ⟨movies[p.1] :: es', ?_, by simp [hlen]⟩
    simp [loopEntries, List.getElem?_eq_getElem hp, hes']

theorem movies_list_length (d : List ℚ) :
    (movies_list d).length = min 5 (d.length - 1) := by
  simp [movies_list, pySortDescBySnd]

theorem fst_lt_of_mem_movies_list {d : List ℚ} {p : Nat × ℚ}
    (h : p ∈ movies_list d) : p.1 < d.length := by
  have h1 : p ∈ pySortDescBySnd d.enum :=
    List.mem_of_mem_drop (List.mem_of_mem_take h)
  have h2 : p ∈ d.enum := (List.mem_insertionSort _).mp h1
  exact List.fst_lt_of_mem_enum h2

theorem findIdx_some_of_title_mem {movies : Catalog} {movie : String}
    (h : ∃ e ∈ movies, e.title = movie) :
    ∃ i, movies.findIdx? (fun e => e.title == movie) = some i ∧
      i < movies.length := by
  have hs : (movies.findIdx? (fun e => e.title == movie)).isSome := by
    rw [List.findIdx?_isSome, List.any_eq_true]
    obtain ⟨e, he, ht⟩ := h
    exact ⟨e, he, by simp [ht]⟩
  obtain ⟨i, hi⟩ := Option.isSome_iff_exists.mp hs
  obtain ⟨hlt, -⟩ := List.findIdx?_eq_some_iff_getElem.mp hi
  exact ⟨i, hi, hlt⟩

/-- Characterization of a successful run of `recommend`: when the title is
found at index `i`, row `i` of the matrix exists, and every selected index is
in range, the result collects the visited entries' titles and fetched
posters, and summarizes the failed-poster count when it is positive. -/
theorem recommend_eq_ok {movie : String} {movies : Catalog}
    {similarity : SimMatrix} {fetch : Nat → FetchOutcome} {i : Nat}
    {row : List ℚ} {es : List MovieEntry}
    (h1 : movies.findIdx? (fun e => e.title == movie) = some i)
    (h2 : similarity[i]? = some row)
    (h3 : loopEntries movies (movies_list row) = some es) :
    recommend movie movies similarity fetch =
      { names := loopNames es, posters := loopPosters fetch es,
        infoShown := if loopFailed fetch es > 0 then some (loopFailed fetch es)
                     else none,
        errorShown := false } := by
  simp only [recommend, recommend_body, Bind.bind, Except.bind, h1, h2,
    @recLoop_eq_ok movies fetch (movies_list row) es h3]

theorem fetch_poster_of_fails {o : FetchOutcome} (h : fetchFails o = true) :
    fetch_poster o = placeholderURL := by
  cases o with
  | exn => rfl
  | response status path =>
    by_cases hs : status = 200
    · cases path with
      | none => simp [fetch_poster, hs]
      | some p =>
        by_cases hp : p = ""
        · simp [fetch_poster, hs, hp]
        · exfalso
          simp [fetchFails, hs, hp] at h
    · simp [fetch_poster, hs]

theorem placeholderURL_contains :
    strContainsSub placeholderURL "placeholder" = true := by decide

theorem recommend_body_err_of_title_not_found {movie : String} {movies : Catalog}
    {similarity : SimMatrix} {fetch : Nat → FetchOutcome}
    (h : ∀ e ∈ movies, e.title ≠ movie) :
    recommend_body movie movies similarity fetch = .error .indexError := by
  have hfi : movies.findIdx? (fun e => e.title == movie) = none := by
    rw [List.findIdx?_eq_none_iff]
    intro e he
    simp [h e he]
  simp [recommend_body, hfi, Bind.bind, Except.bind]

theorem recommend_eq_err {movie : String} {movies : Catalog}
    {similarity : SimMatrix} {fetch : Nat → FetchOutcome} {err : PyError}
    (h : recommend_body movie movies similarity fetch = .error err) :
    recommend movie movies similarity fetch =
      { names := [], posters := [], infoShown := none, errorShown := true } := by
  simp [recommend, h]

/-- When the matrix is square of the catalog's size and the title occurs in
the catalog, a run of `recommend` succeeds: the title is found, its row
exists, every selected index is in range, and the number of visited entries
is `min 5 (n - 1)`. -/
theorem recommend_success_setup {movie : String} {movies : Catalog}
    {similarity : SimMatrix}
    (hsq : similarity.length = movies.length)
    (hrow : ∀ row ∈ similarity, row.length = movies.length)
    (htitle : ∃ e ∈ movies, e.title = movie) :
    ∃ i row es,
      movies.findIdx? (fun e => e.title == movie) = some i ∧
      similarity[i]? = some row ∧
      loopEntries movies (movies_list row) = some es ∧
      es.length = min 5 (movies.length - 1) := by
  obtain ⟨i, hfi, hilt⟩ := findIdx_some_of_title_mem htitle
  have hisim : i < similarity.length := hsq ▸ hilt
  have h2 : similarity[i]? = some similarity[i] := List.getElem?_eq_getElem hisim
  have hrlen : similarity[i].length = movies.length :=
    hrow _ (List.getElem_mem hisim)
  have hb : ∀ p ∈ movies_list similarity[i], p.1 < movies.length := fun p hp =>
    hrlen ▸ fst_lt_of_mem_movies_list hp
  obtain ⟨es, hes, helen⟩ := loopEntries_of_bounds hb
  exact ⟨i, similarity[i], es, hfi, h2, hes, by
    rw [helen, movies_list_length, hrlen]⟩

/-! ## The claims -/

/-- C1 (counterexample): with catalog `["A"]` and the unknown title `"B"`,
the internal lookup does fail with `IndexError` (a `LookupError`), but
`recommend` — the function the caller invokes — catches it and returns the
normal value `([], [])` with an error message displayed: the exception is
swallowed inside `recommend` rather than propagated to the caller. -/
theorem C1_lookup_swallowed_counterexample :
    recommend_body "B" [⟨1, "A"⟩] [[1]] (fun _ => FetchOutcome.exn) =
      Except.error PyError.indexError ∧
    recommend "B" [⟨1, "A"⟩] [[1]] (fun _ => FetchOutcome.exn) =
      { names := [], posters := [], infoShown := none, errorShown := true } :=
  ⟨rfl, rfl⟩

/-- C1 (amended): for every title matching no catalog entry, the lookup
inside `recommend` raises `IndexError` (a subclass of `LookupError`), and
`recommend` catches it, displays an error message, and returns the pair of
empty lists to its caller; no exception propagates out of `recommend`. -/
theorem C1_lookup_error_caught (movie : String) (movies : Catalog)
    (similarity : SimMatrix) (fetch : Nat → FetchOutcome)
    (h : ∀ e ∈ movies, e.title ≠ movie) :
    recommend_body movie movies similarity fetch =
      Except.error PyError.indexError ∧
    recommend movie movies similarity fetch =
      { names := [], posters := [], infoShown := none, errorShown := true } := by
  have hb := @recommend_body_err_of_title_not_found movie movies similarity fetch h
  exact ⟨hb, recommend_eq_err hb⟩

theorem C1_lookup_error_caught_witness :
    recommend_body "Z" [⟨9, "X"⟩, ⟨10, "Y"⟩] [[1, 0], [0, 1]]
      (fun _ => FetchOutcome.exn) = Except.error PyError.indexError ∧
    recommend "Z" [⟨9, "X"⟩, ⟨10, "Y"⟩] [[1, 0], [0, 1]]
      (fun _ => FetchOutcome.exn) =
      { names := [], posters := [], infoShown := none, errorShown := true } :=
  C1_lookup_error_caught "Z" [⟨9, "X"⟩, ⟨10, "Y"⟩] [[1, 0], [0, 1]]
    (fun _ => FetchOutcome.exn) (by decide)

/-- C2: for every catalog with at least 6 entries whose similarity matrix is
square of the catalog's size, and every title present in the catalog, the
recommendation list returned by `recommend` has length exactly 5. -/
theorem C2_five_recommendations
    (movies : Catalog) (similarity : SimMatrix) (fetch : Nat → FetchOutcome)
    (movie : String)
    (hlen : 6 ≤ movies.length)
    (hsq : similarity.length = movies.length)
    (hrow : ∀ row ∈ similarity, row.length = movies.length)
    (htitle : ∃ e ∈ movies, e.title = movie) :
    (recommend movie movies similarity fetch).names.length = 5 := by
  obtain ⟨i, row, es, hfi, h2, hes, helen⟩ :=
    recommend_success_setup hsq hrow htitle
  have h5 : es.length = 5 := by omega
  rw [recommend_eq_ok hfi h2 hes]
  simp [loopNames, h5]

theorem C2_five_recommendations_witness :
    (recommend "A"
      [⟨1, "A"⟩, ⟨2, "B"⟩, ⟨3, "C"⟩, ⟨4, "D"⟩, ⟨5, "E"⟩, ⟨6, "F"⟩]
      (List.replicate 6 (List.replicate 6 (0 : ℚ)))
      (fun _ => FetchOutcome.exn)).names.length = 5 :=
  C2_five_recommendations
    [⟨1, "A"⟩, ⟨2, "B"⟩, ⟨3, "C"⟩, ⟨4, "D"⟩, ⟨5, "E"⟩, ⟨6, "F"⟩]
    (List.replicate 6 (List.replicate 6 (0 : ℚ)))
    (fun _ => FetchOutcome.exn) "A"
    (by decide) (by decide) (by decide) (by decide)

/-- C5: over a catalog with at least 6 entries (matrix square of the
catalog's size, title present), whatever the poster-fetch outcomes are, the
run of `recommend` reaches its normal return: no error is displayed, both
lists still have length 5, the posters are exactly `fetch_poster` applied to
each visited entry's outcome, and every entry whose fetch fails gets the
fixed placeholder URL. -/
theorem C5_poster_failure_non_fatal
    (movies : Catalog) (similarity : SimMatrix) (fetch : Nat → FetchOutcome)
    (movie : String)
    (hlen : 6 ≤ movies.length)
    (hsq : similarity.length = movies.length)
    (hrow : ∀ row ∈ similarity, row.length = movies.length)
    (htitle : ∃ e ∈ movies, e.title = movie) :
    (recommend movie movies similarity fetch).errorShown = false ∧
    (recommend movie movies similarity fetch).names.length = 5 ∧
    (recommend movie movies similarity fetch).posters.length = 5 ∧
    ∃ es : List MovieEntry, es.length = 5 ∧
      (recommend movie movies similarity fetch).posters = loopPosters fetch es ∧
      ∀ e ∈ es, fetchFails (fetch e.movie_id) = true →
        fetch_poster (fetch e.movie_id) = placeholderURL := by
  obtain ⟨i, row, es, hfi, h2, hes, helen⟩ :=
    recommend_success_setup hsq hrow htitle
  have h5 : es.length = 5 := by omega
  rw [recommend_eq_ok hfi h2 hes]
  refine ⟨rfl, by simp [loopNames, h5], by simp [loopPosters, h5],
    es, h5, rfl, ?_⟩
  intro e _ hf
  exact fetch_poster_of_fails hf

theorem C5_poster_failure_non_fatal_witness :
    (recommend "A"
      [⟨1, "A"⟩, ⟨2, "B"⟩, ⟨3, "C"⟩, ⟨4, "D"⟩, ⟨5, "E"⟩, ⟨6, "F"⟩]
      (List.replicate 6 (List.replicate 6 (0 : ℚ)))
      (fun _ => FetchOutcome.exn)).errorShown = false ∧
    (recommend "A"
      [⟨1, "A"⟩, ⟨2, "B"⟩, ⟨3, "C"⟩, ⟨4, "D"⟩, ⟨5, "E"⟩, ⟨6, "F"⟩]
      (List.replicate 6 (List.replicate 6 (0 : ℚ)))
      (fun _ => FetchOutcome.exn)).names.length = 5 ∧
    (recommend "A"
      [⟨1, "A"⟩, ⟨2, "B"⟩, ⟨3, "C"⟩, ⟨4, "D"⟩, ⟨5, "E"⟩, ⟨6, "F"⟩]
      (List.replicate 6 (List.replicate 6 (0 : ℚ)))
      (fun _ => FetchOutcome.exn)).posters.length = 5 ∧
    ∃ es : List MovieEntry, es.length = 5 ∧
      (recommend "A"
        [⟨1, "A"⟩, ⟨2, "B"⟩, ⟨3, "C"⟩, ⟨4, "D"⟩, ⟨5, "E"⟩, ⟨6, "F"⟩]
        (List.replicate 6 (List.replicate 6 (0 : ℚ)))
        (fun _ => FetchOutcome.exn)).posters =
        loopPosters (fun _ => FetchOutcome.exn) es ∧
      ∀ e ∈ es, fetchFails ((fun _ => FetchOutcome.exn) e.movie_id) = true →
        fetch_poster ((fun _ => FetchOutcome.exn) e.movie_id) = placeholderURL :=
  C5_poster_failure_non_fatal
    [⟨1, "A"⟩, ⟨2, "B"⟩, ⟨3, "C"⟩, ⟨4, "D"⟩, ⟨5, "E"⟩, ⟨6, "F"⟩]
    (List.replicate 6 (List.replicate 6 (0 : ℚ)))
    (fun _ => FetchOutcome.exn) "A"
    (by decide) (by decide) (by decide) (by decide)

/-- C8: for a square matrix matching the catalog's size and a title present
in the catalog, the recommendation list has length `min 5 (n - 1)` where `n`
is the catalog size: at most 5 entries, and shorter exactly when fewer than 5
non-self entries exist. -/
theorem C8_length_min_five
    (movies : Catalog) (similarity : SimMatrix) (fetch : Nat → FetchOutcome)
    (movie : String)
    (hsq : similarity.length = movies.length)
    (hrow : ∀ row ∈ similarity, row.length = movies.length)
    (htitle : ∃ e ∈ movies, e.title = movie) :
    (recommend movie movies similarity fetch).names.length =
      min 5 (movies.length - 1) := by
  obtain ⟨i, row, es, hfi, h2, hes, helen⟩ :=
    recommend_success_setup hsq hrow htitle
  rw [recommend_eq_ok hfi h2 hes]
  simp [loopNames, helen]

theorem C8_length_min_five_witness :
    (recommend "B" [⟨1, "A"⟩, ⟨2, "B"⟩, ⟨3, "C"⟩]
      [[1, 0, 0], [0, 1, 0], [0, 0, 1]]
      (fun _ => FetchOutcome.exn)).names.length =
      min 5 (([⟨1, "A"⟩, ⟨2, "B"⟩, ⟨3, "C"⟩] : Catalog).length - 1) :=
  C8_length_min_five [⟨1, "A"⟩, ⟨2, "B"⟩, ⟨3, "C"⟩]
    [[1, 0, 0], [0, 1, 0], [0, 0, 1]]
    (fun _ => FetchOutcome.exn) "B"
    (by decide) (by decide) (by decide)

/-- C9: for every input whatsoever — any title, catalog, matrix and fetch
outcomes — `recommend` returns a titles list and a posters list of equal
length; on the error path both are empty.  `recommend` is a total function
of its inputs, embedding the fact that it never raises: every exception in
its body is caught by its `try/except`. -/
theorem C9_equal_lengths_total (movie : String) (movies : Catalog)
    (similarity : SimMatrix) (fetch : Nat → FetchOutcome) :
    (recommend movie movies similarity fetch).names.length =
      (recommend movie movies similarity fetch).posters.length := by
  cases hfi : movies.findIdx? (fun e => e.title == movie) with
  | none =>
    have hb : recommend_body movie movies similarity fetch =
        .error .indexError := by
      simp [recommend_body, hfi, Bind.bind, Except.bind]
    rw [recommend_eq_err hb]
  | some i =>
    cases hrow : similarity[i]? with
    | none =>
      have hb : recommend_body movie movies similarity fetch =
          .error .indexError := by
        simp [recommend_body, hfi, hrow, Bind.bind, Except.bind]
      rw [recommend_eq_err hb]
    | some row =>
      cases hle : loopEntries movies (movies_list row) with
      | none =>
        have hb : recommend_body movie movies similarity fetch =
            .error .indexError := by
          simp [recommend_body, hfi, hrow, Bind.bind, Except.bind,
            recLoop_eq_err hle]
        rw [recommend_eq_err hb]
      | some es =>
        rw [recommend_eq_ok hfi hrow hle]
        simp [loopNames, loopPosters]

/-- C10: if the artifact fails to load (file present but not unpicklable) or
the freshly downloaded file fails pickle verification, `load_similarity_data`
returns `None` and `similarity.pkl` is removed; and whenever it does return a
value, the file it loaded from is a verified (loadable) one. -/
theorem C10_no_corrupt_artifact (initFile : Option Bool) (dl : DownloadOutcome) :
    ((initFile = some false ∨ (initFile = none ∧ dl = DownloadOutcome.ok false)) →
      load_similarity_data initFile dl =
        { result := none, finalFile := none }) ∧
    ((load_similarity_data initFile dl).result.isSome →
      (load_similarity_data initFile dl).finalFile = some true) := by
  constructor
  · rintro (h | ⟨h1, h2⟩)
    · subst h
      simp [load_similarity_data]
    · subst h1
      subst h2
      simp [load_similarity_data]
  · cases initFile with
    | none =>
      cases dl with
      | exn leftover => simp [load_similarity_data]
      | ok valid => cases valid <;> simp [load_similarity_data]
    | some valid => cases valid <;> simp [load_similarity_data]

theorem C10_no_corrupt_artifact_witness :
    load_similarity_data (some false) (DownloadOutcome.ok true) =
      { result := none, finalFile := none } :=
  (C10_no_corrupt_artifact (some false) (DownloadOutcome.ok true)).1 (Or.inl rfl)

/-- C3 (counterexample): the self-index can appear in the output.  With
catalog `["A", "B"]` and the all-ones matrix, the row of `"B"` (index 1) ties
with index 0; the stable descending sort keeps `(0, 1)` first, so dropping
the first pair drops index 0, not the self-match, and the recommendation for
`"B"` is `"B"` itself. -/
theorem C3_self_in_output_counterexample :
    ([⟨1, "A"⟩, ⟨2, "B"⟩] : Catalog).findIdx? (fun e => e.title == "B") =
      some 1 ∧
    1 ∈ (movies_list [1, 1]).map Prod.fst ∧
    (recommend "B" [⟨1, "A"⟩, ⟨2, "B"⟩] [[1, 1], [1, 1]]
      (fun _ => FetchOutcome.exn)).names = ["B"] := by
  decide

/-- C3 (amended): provided the selected row's self-score is strictly greater
than every other score in the row, the first pair of the stable descending
sort is the self-match `(i, row[i])`, and after dropping it the selected
index never occurs among the indices of the returned recommendations. -/
theorem C3_self_excluded_of_strict_max
    (movies : Catalog) (similarity : SimMatrix) (movie : String)
    (i : Nat) (row : List ℚ)
    (h1 : movies.findIdx? (fun e => e.title == movie) = some i)
    (h2 : similarity[i]? = some row)
    (hi : i < row.length)
    (hmax : ∀ j, (hj : j < row.length) → j ≠ i → row[j] < row[i]) :
    (pySortDescBySnd row.enum).head? = some (i, row[i]) ∧
      i ∉ (movies_list row).map Prod.fst := by
  have hperm : List.Perm (pySortDescBySnd row.enum) row.enum :=
    List.perm_insertionSort _ _
  have hsorted : (pySortDescBySnd row.enum).Pairwise
      (fun a b : Nat × ℚ => b.2 ≤ a.2) :=
    List.sorted_insertionSort _ _
  have hmem : (i, row[i]) ∈ pySortDescBySnd row.enum := by
    rw [pySortDescBySnd, List.mem_insertionSort, List.mem_enum_iff_getElem?]
    exact List.getElem?_eq_getElem hi
  cases hs : pySortDescBySnd row.enum with
  | nil =>
    rw [hs] at hmem
    exact absurd hmem (List.not_mem_nil _)
  | cons hd tl =>
    have hhd : hd ∈ row.enum := by
      have hm : hd ∈ pySortDescBySnd row.enum := by
        rw [hs]
        exact List.mem_cons_self _ _
      rw [pySortDescBySnd, List.mem_insertionSort] at hm
      exact hm
    have hhd1 : hd.1 < row.length := List.fst_lt_of_mem_enum hhd
    have hhd2 : hd.2 = row[hd.1] := List.snd_eq_of_mem_enum hhd
    rw [hs] at hmem hsorted
    have hdi : hd.1 = i := by
      by_contra hne
      have hlt : row[hd.1] < row[i] := hmax hd.1 hhd1 hne
      rcases List.mem_cons.mp hmem with heq | htl
      · exact hne (congrArg Prod.fst heq.symm)
      · have hle : row[i] ≤ hd.2 :=
          (List.pairwise_cons.mp hsorted).1 _ htl
        rw [hhd2] at hle
        exact absurd (lt_of_le_of_lt hle hlt) (lt_irrefl _)
    subst hdi
    have hdeq : hd = (hd.1, row[hd.1]) := by
      rw [← hhd2]
    constructor
    · rw [List.head?_cons, ← hdeq]
    · have hnd : ((pySortDescBySnd row.enum).map Prod.fst).Nodup := by
        have hpm : List.Perm ((pySortDescBySnd row.enum).map Prod.fst)
            (row.enum.map Prod.fst) := hperm.map _
        rw [List.enum_map_fst] at hpm
        exact hpm.nodup_iff.mpr (List.nodup_range _)
      rw [hs, List.map_cons] at hnd
      have hni : hd.1 ∉ tl.map Prod.fst := (List.nodup_cons.mp hnd).1
      have hml : movies_list row = tl.take 5 := by
        rw [movies_list, hs]
        rfl
      rw [hml]
      intro hmem2
      rw [List.map_take] at hmem2
      exact hni (List.mem_of_mem_take hmem2)

theorem C3_self_excluded_of_strict_max_witness :
    (pySortDescBySnd ([5, 3] : List ℚ).enum).head? = some (0, 5) ∧
      0 ∉ (movies_list [5, 3]).map Prod.fst :=
  C3_self_excluded_of_strict_max [⟨1, "A"⟩, ⟨2, "B"⟩] [[5, 3], [3, 5]] "A"
    0 [5, 3] (by decide) rfl (by decide) (by decide)

/-- C4: for every title found in the catalog, the selected (index, score)
pairs — and hence the returned recommendations — are ordered by
non-increasing similarity score: each adjacent pair of the selection has the
earlier score greater than or equal to the later one. -/
theorem C4_scores_nonincreasing
    (movies : Catalog) (similarity : SimMatrix) (movie : String)
    (i : Nat) (row : List ℚ)
    (_h1 : movies.findIdx? (fun e => e.title == movie) = some i)
    (_h2 : similarity[i]? = some row) :
    (movies_list row).Chain' (fun a b : Nat × ℚ => b.2 ≤ a.2) := by
  have hp : (pySortDescBySnd row.enum).Pairwise
      (fun a b : Nat × ℚ => b.2 ≤ a.2) :=
    List.sorted_insertionSort _ _
  have hsub : List.Sublist (movies_list row) (pySortDescBySnd row.enum) :=
    (List.take_sublist _ _).trans (List.drop_sublist _ _)
  exact (List.Pairwise.sublist hsub hp).chain'

theorem C4_scores_nonincreasing_witness :
    (movies_list [5, 3]).Chain' (fun a b : Nat × ℚ => b.2 ≤ a.2) :=
  C4_scores_nonincreasing [⟨1, "A"⟩, ⟨2, "B"⟩] [[5, 3], [3, 5]] "A" 0 [5, 3]
    (by decide) rfl

/-- C6: for the similarity matrix `[[1, 0.9, 0.1], [0.9, 1, 0.2], [0.1, 0.2, 1]]`
and the catalog with titles `["A", "B", "C"]`, requesting recommendations for
`"A"` returns the titles `["B", "C"]` in that order, whatever the poster
fetch outcomes are. -/
theorem C6_concrete_example (fetch : Nat → FetchOutcome) :
    (recommend "A" [⟨1, "A"⟩, ⟨2, "B"⟩, ⟨3, "C"⟩]
      [[1, 0.9, 0.1], [0.9, 1, 0.2], [0.1, 0.2, 1]] fetch).names =
      ["B", "C"] := by
  have h1 : ([⟨1, "A"⟩, ⟨2, "B"⟩, ⟨3, "C"⟩] : Catalog).findIdx?
      (fun e => e.title == "A") = some 0 := by decide
  have h2 : ([[1, 0.9, 0.1], [0.9, 1, 0.2], [0.1, 0.2, 1]] :
      SimMatrix)[(0 : Nat)]? = some [1, 0.9, 0.1] := rfl
  have h3 : loopEntries [⟨1, "A"⟩, ⟨2, "B"⟩, ⟨3, "C"⟩]
      (movies_list [1, 0.9, 0.1]) = some [⟨2, "B"⟩, ⟨3, "C"⟩] := by
    norm_num [loopEntries, movies_list, pySortDescBySnd, List.enum,
      List.enumFrom]
  rw [recommend_eq_ok h1 h2 h3]
  rfl

/-- C7 (counterexample): the summarized failure count does not always equal
the number of actual fetch failures.  With a fetch that succeeds (status 200)
but whose `poster_path` is `"placeholder.jpg"`, the constructed URL contains
the substring `"placeholder"`, so the counter reports one failure although no
fetch failed and no placeholder was substituted. -/
theorem C7_miscounted_placeholder_counterexample :
    fetchFails ((fun _ => FetchOutcome.response 200 (some "placeholder.jpg")) 2) =
      false ∧
    (recommend "A" [⟨1, "A"⟩, ⟨2, "B"⟩] [[1, 0], [0, 1]]
      (fun _ => FetchOutcome.response 200 (some "placeholder.jpg"))).posters =
      [tmdbImageBase ++ "placeholder.jpg"] ∧
    (recommend "A" [⟨1, "A"⟩, ⟨2, "B"⟩] [[1, 0], [0, 1]]
      (fun _ => FetchOutcome.response 200 (some "placeholder.jpg"))).infoShown =
      some 1 := by
  decide

/-- C7 (amended): the counter tallies the returned poster URLs containing the
substring `"placeholder"`; provided no successful fetch's constructed URL
contains that substring, the summarized count equals the exact number of
results whose poster fetch failed (and the summary is shown exactly when that
number is positive). -/
theorem C7_failure_count_exact
    (movies : Catalog) (similarity : SimMatrix) (fetch : Nat → FetchOutcome)
    (movie : String) (i : Nat) (row : List ℚ) (es : List MovieEntry)
    (h1 : movies.findIdx? (fun e => e.title == movie) = some i)
    (h2 : similarity[i]? = some row)
    (h3 : loopEntries movies (movies_list row) = some es)
    (hclean : ∀ id, fetchFails (fetch id) = false →
      strContainsSub (fetch_poster (fetch id)) "placeholder" = false) :
    (recommend movie movies similarity fetch).infoShown =
      if 0 < es.countP (fun e => fetchFails (fetch e.movie_id))
      then some (es.countP (fun e => fetchFails (fetch e.movie_id)))
      else none := by
  have hcount : loopFailed fetch es =
      es.countP (fun e => fetchFails (fetch e.movie_id)) := by
    unfold loopFailed
    apply List.countP_congr
    intro e _
    cases hf : fetchFails (fetch e.movie_id) with
    | true => simp [fetch_poster_of_fails hf, placeholderURL_contains]
    | false => simp [hclean _ hf]
  rw [recommend_eq_ok h1 h2 h3]
  simp only [hcount]

theorem C7_failure_count_exact_witness :
    (recommend "A" [⟨1, "A"⟩, ⟨2, "B"⟩] [[1, 0], [0, 1]]
      (fun _ => FetchOutcome.exn)).infoShown = some 1 :=
  (C7_failure_count_exact [⟨1, "A"⟩, ⟨2, "B"⟩] [[1, 0], [0, 1]]
    (fun _ => FetchOutcome.exn) "A" 0 [1, 0] [⟨2, "B"⟩]
    (by decide) rfl (by decide)
    (fun id h => by simp [fetchFails] at h)).trans (by decide)

end MovieRec
